import Mathlib

/-!
Shallow embedding of `src/src/spatialSEIRModel.cpp` (repository
josh-tomiyama/ABSEIR): the calibration orchestrator `spatialSEIRModel`
(constructor, `generateParamsPrior`, `setParameters`, `evalPrior`,
`run_simulation`) and the run-control validator `samplingControl`
(constructor, destructor).

Numbers are embedded as rationals (the C++ code works with `double`; no
claim under verification depends on floating-point rounding).  Random draws
are embedded symbolically: the generator is a counter `k : ℕ` advanced once
per variate, and an abstract source `g : ℕ → DrawDist → ℚ` supplies the `k`-th
variate of a requested distribution, so a theorem can speak about which
distribution (shape/scale parameters included) each matrix cell is drawn
from, exactly as the source requests it.  Probability densities
(`R::dnorm`, `R::dbeta`, `R::dgamma`) and the weibull hyperprior evaluator
are likewise abstract function parameters: the claims are about which
arguments the code passes them and how the products combine.
-/

/-- Product f 0 * f 1 * ... * f (n-1), the shape of the accumulation loops
in `evalPrior`. -/
def prodR (n : ℕ) (f : ℕ → ℚ) : ℚ := ((List.range n).map f).prod

/-- Sum f 0 + ... + f (n-1), the shape of the `constr` accumulation in
`evalPrior`. -/
def sumR (n : ℕ) (f : ℕ → ℚ) : ℚ := ((List.range n).map f).sum

/-- An Eigen matrix of doubles, embedded as its dimensions and an entry
function (row, column). -/
structure MatrixQ where
  rows : ℕ
  cols : ℕ
  entry : ℕ → ℕ → ℚ

/-- Column `j` of a matrix as a vector, as in `E_to_I_params.col(0)`. -/
def MatrixQ.colList (m : MatrixQ) (j : ℕ) : List ℚ :=
  (List.range m.rows).map (fun i => m.entry i j)

/-- The distribution a single call to the random number provider requests:
`std::normal_distribution<>(0,1)` or `std::gamma_distribution<>(shape, scale)`. -/
inductive DrawDist where
  | normal01 : DrawDist
  | gammaD (shape scale : ℚ) : DrawDist
deriving DecidableEq

/-- Modelled from the spec: the component type discriminants
(`LSS_*_TYPE`, declared in headers outside `src/`); the spec only requires
each component to expose a discriminant identifying its role, so they are
modelled as distinct constants. -/
def LSS_DATA_MODEL_TYPE : ℤ := 0

def LSS_EXPOSURE_MODEL_TYPE : ℤ := 1

def LSS_REINFECTION_MODEL_TYPE : ℤ := 2

def LSS_DISTANCE_MODEL_TYPE : ℤ := 3

def LSS_TRANSITION_MODEL_TYPE : ℤ := 4

def LSS_INIT_CONTAINER_TYPE : ℤ := 5

def LSS_SAMPLING_CONTROL_MODEL_TYPE : ℤ := 6

/-- Modelled from the spec: the dataModel handle (class outside `src/`);
fields are the accessor surface the orchestrator uses (spec section 6).
`compType` is what `getModelComponentType()` returns for the handle that
was actually passed in this argument position. -/
structure dataModel where
  compType : ℤ
  nLoc : ℕ
  nTpt : ℕ
  Y : MatrixQ

/-- Modelled from the spec: the exposureModel handle (class outside `src/`). -/
structure exposureModel where
  compType : ℤ
  nLoc : ℕ
  nTpt : ℕ
  X : MatrixQ
  betaPriorMean : List ℚ
  betaPriorPrecision : List ℚ

/-- Modelled from the spec: the reinfectionModel handle (class outside `src/`). -/
structure reinfectionModel where
  compType : ℤ
  reinfectionMode : ℤ
  X_rs : MatrixQ
  betaPriorMean : List ℚ
  betaPriorPrecision : List ℚ

/-- Modelled from the spec: the distanceModel handle (class outside `src/`). -/
structure distanceModel where
  compType : ℤ
  numLocations : ℕ
  dm_list : List MatrixQ
  tdm_list : List (List MatrixQ)
  spatial_prior : List ℚ

/-- Modelled from the spec: the transitionPriors handle (class outside `src/`). -/
structure transitionPriors where
  compType : ℤ
  mode : String
  E_to_I_params : MatrixQ
  I_to_R_params : MatrixQ

/-- Modelled from the spec: the initialValueContainer handle (class outside `src/`). -/
structure initialValueContainer where
  compType : ℤ
  S0 : List ℚ
  E0 : List ℚ
  I0 : List ℚ
  R0 : List ℚ

/-- The samplingControl object: the fields its constructor
(`samplingControl::samplingControl`, lines 447-490) parses from the
9-integer / 3-numeric block, plus the reference-count guard `prot` read by
the destructor (declared in the header outside `src/`). -/
structure samplingControl where
  compType : ℤ
  simulation_width : ℤ
  random_seed : ℤ
  CPU_cores : ℤ
  algorithm : ℤ
  batch_size : ℤ
  epochs : ℤ
  max_batches : ℤ
  multivariatePerturbation : Bool
  m : ℤ
  accept_fraction : ℚ
  shrinkage : ℚ
  target_eps : ℚ
  prot : ℤ

/-- A weibull transition distribution: it owns the hyperparameter vector it
was constructed from (`weibullTransitionDistribution(col(0))`, lines 122-142). -/
structure weibullTransitionDistribution where
  priorParams : List ℚ

/-- The worker pool, reduced to the construction arguments the claims
mention (built only after all constructor validation passes, lines 160-191). -/
structure NodePool where
  cores : ℤ
  seed : ℤ
  m : ℤ

/-- The orchestrator state after construction: the seven stored component
handles (lines 53-59), the two transition distributions (lines 121-142),
the initialization flag and particle matrix (lines 151-152, 341-342), the
result stores (lines 154-157) and the worker pool (lines 159-191). -/
structure spatialSEIRModel where
  dataModelInstance : dataModel
  exposureModelInstance : exposureModel
  reinfectionModelInstance : reinfectionModel
  distanceModelInstance : distanceModel
  transitionPriorsInstance : transitionPriors
  initialValueContainerInstance : initialValueContainer
  samplingControlInstance : samplingControl
  EI_transition_dist : weibullTransitionDistribution
  IR_transition_dist : weibullTransitionDistribution
  is_initialized : Bool
  param_matrix : MatrixQ
  results_double : MatrixQ
  results_complete : List Unit
  result_idx : List ℕ
  worker_pool : NodePool

/-- Constructor validation and assembly, `spatialSEIRModel::spatialSEIRModel`
(lines 31-192).  Each `Rcpp::stop` is an `Except.error`; the worker pool and
the rest of the state exist only in the `Except.ok` branch, so a failed
validation leaves no partially constructed orchestrator. -/
def spatialSEIRModel.construct (d : dataModel) (e : exposureModel)
    (r : reinfectionModel) (ds : distanceModel) (tp : transitionPriors)
    (iv : initialValueContainer) (sc : samplingControl) :
    Except String spatialSEIRModel :=
  if d.compType ≠ LSS_DATA_MODEL_TYPE ∨ e.compType ≠ LSS_EXPOSURE_MODEL_TYPE ∨
      r.compType ≠ LSS_REINFECTION_MODEL_TYPE ∨ ds.compType ≠ LSS_DISTANCE_MODEL_TYPE ∨
      tp.compType ≠ LSS_TRANSITION_MODEL_TYPE ∨ iv.compType ≠ LSS_INIT_CONTAINER_TYPE ∨
      sc.compType ≠ LSS_SAMPLING_CONTROL_MODEL_TYPE then
    Except.error "Error: model components were not provided in the correct order."
  else if d.nLoc ≠ e.nLoc then
    Except.error "Exposure model and data model imply different number of locations."
  else if d.nTpt ≠ e.nTpt then
    Except.error "Exposure model and data model imply different number of time points."
  else if d.nLoc ≠ ds.numLocations then
    Except.error "Data model and distance model imply different number of locations."
  else if ds.tdm_list.length ≠ d.nTpt then
    Except.error "TDistance model and data model imply a different number of time points."
  else if ∃ l ∈ ds.tdm_list, l.length ≠ (ds.tdm_list.getD 0 []).length then
    Except.error "Differing number of lagged contact matrices across time points."
  else if d.nLoc ≠ iv.S0.length then
    Except.error "Data model and initial value container have different dimensions"
  else if r.reinfectionMode ≠ 3 ∧ r.X_rs.rows ≠ d.nTpt then
    Except.error "Reinfection and data mode time points differ."
  else if tp.mode ≠ "exponential" ∧ tp.mode ≠ "path_specific" ∧ tp.mode ≠ "weibull" then
    Except.error "Invalid transition mode."
  else
    Except.ok
      { dataModelInstance := d
        exposureModelInstance := e
        reinfectionModelInstance := r
        distanceModelInstance := ds
        transitionPriorsInstance := tp
        initialValueContainerInstance := iv
        samplingControlInstance := sc
        EI_transition_dist :=
          if tp.mode = "weibull" then ⟨tp.E_to_I_params.colList 0⟩ else ⟨[1, 1, 1, 1]⟩
        IR_transition_dist :=
          if tp.mode = "weibull" then ⟨tp.I_to_R_params.colList 0⟩ else ⟨[1, 1, 1, 1]⟩
        is_initialized := false
        param_matrix := ⟨0, 0, fun _ _ => 0⟩
        results_double := ⟨sc.batch_size.toNat, sc.m.toNat, fun _ _ => 0⟩
        results_complete := []
        result_idx := []
        worker_pool := ⟨sc.CPU_cores, sc.random_seed, sc.m⟩ }

/-- `hasReinfection` as computed inside `generateParamsPrior` (lines 196-197)
and `evalPrior` (line 349): the first reinfection prior precision is
positive. -/
def spatialSEIRModel.hasReinfection (o : spatialSEIRModel) : Bool :=
  decide (0 < o.reinfectionModelInstance.betaPriorPrecision.getD 0 0)

/-- `hasSpatial` as computed inside `generateParamsPrior` (line 198) and
`evalPrior` (line 350): the observed incidence matrix has more than one
column (more than one location). -/
def spatialSEIRModel.hasSpatial (o : spatialSEIRModel) : Bool :=
  decide (1 < o.dataModelInstance.Y.cols)

/-- `nBeta = X.cols()` (lines 201, 327, 352). -/
def spatialSEIRModel.nBeta (o : spatialSEIRModel) : ℕ :=
  o.exposureModelInstance.X.cols

/-- `nBetaRS = X_rs.cols() * hasReinfection` (lines 202, 328, 353). -/
def spatialSEIRModel.nBetaRS (o : spatialSEIRModel) : ℕ :=
  o.reinfectionModelInstance.X_rs.cols * (if o.hasReinfection then 1 else 0)

/-- `nRho = (dm_list.size() + tdm_list[0].size()) * hasSpatial`
(lines 203-204, 329-330, 354-355). -/
def spatialSEIRModel.nRho (o : spatialSEIRModel) : ℕ :=
  (o.distanceModelInstance.dm_list.length +
      (o.distanceModelInstance.tdm_list.getD 0 []).length) *
    (if o.hasSpatial then 1 else 0)

/-- `nTrans` for a transition mode: 2 for exponential, 4 for weibull, 0
otherwise (lines 205-206, 332-333). -/
def nTransOf (mode : String) : ℕ :=
  if mode = "exponential" then 2 else if mode = "weibull" then 4 else 0

/-- `nParams` as `generateParamsPrior` computes it (lines 196-208). -/
def spatialSEIRModel.generateParamsPrior_nParams (o : spatialSEIRModel) : ℕ :=
  o.nBeta + o.nBetaRS + o.nRho + nTransOf o.transitionPriorsInstance.mode

/-- `nParams` as `setParameters` computes it (lines 327-334).  Modelled from
the spec for the flags: `setParameters` reads `hasReinfection`, `hasSpatial`
and `transitionMode` whose declarations are not in `src/` (they are not
declared locally in the function, unlike in `generateParamsPrior` and
`evalPrior`); the spec states nParams is computed identically by the three
operations, so the flags carry their usual definitions here. -/
def spatialSEIRModel.setParameters_nParams (o : spatialSEIRModel) : ℕ :=
  o.nBeta + o.nBetaRS + o.nRho + nTransOf o.transitionPriorsInstance.mode

/-- The number of entries of `param_vector` that `evalPrior` consumes
(lines 345-413): `nBeta` normal densities, `nBetaRS` normal densities,
`nRho` beta densities, then 2 gamma densities in exponential mode, two
2-entry segments in weibull mode, nothing in path_specific mode. -/
def spatialSEIRModel.evalPrior_nConsumed (o : spatialSEIRModel) : ℕ :=
  o.nBeta + o.nBetaRS + o.nRho +
    (if o.transitionPriorsInstance.mode = "exponential" then 2
     else if o.transitionPriorsInstance.mode = "weibull" then 4 else 0)

/-- One attempted rho block: `nRho` draws from
`std::gamma_distribution<>(spatial_prior(0), 1/spatial_prior(1))`
(lines 218-220 and 310-314), the `a`-th attempt for a row whose rho draws
start at generator position `k`. -/
def rhoAttempt (g : ℕ → DrawDist → ℚ) (shape scale : ℚ) (nR k a : ℕ) : List ℚ :=
  (List.range nR).map (fun j => g (k + a * nR + j) (DrawDist.gammaD shape scale))

/-- The `while (rhoTot > 1.0 && rhoItrs < 100)` retry loop of
`generateParamsPrior` (lines 305-320), as fuel recursion: attempt `a` is
drawn; if its sum is at most 1 it is kept (no diagnostic), otherwise the
loop retries until the fuel (remaining allowed iterations) runs out, in
which case the last draw is kept and the degenerate flag (the
`Rcpp::Rcout` diagnostic of lines 317-320) is true.  Returns
(kept block, number of attempts made, degenerate flag). -/
def rhoTryAux (g : ℕ → DrawDist → ℚ) (shape scale : ℚ) (nR k : ℕ) :
    ℕ → ℕ → List ℚ × ℕ × Bool
  | 0, a => ([], a, true)
  | fuel + 1, a =>
    if (rhoAttempt g shape scale nR k a).sum ≤ 1 then
      (rhoAttempt g shape scale nR k a, a + 1, false)
    else if fuel = 0 then (rhoAttempt g shape scale nR k a, a + 1, true)
    else rhoTryAux g shape scale nR k fuel (a + 1)

/-- The rho block for one particle row: up to 100 attempts (lines 305-316). -/
def drawRhoRow (g : ℕ → DrawDist → ℚ) (shape scale : ℚ) (nR k : ℕ) :
    List ℚ × ℕ × Bool :=
  rhoTryAux g shape scale nR k 100 0

/-- The rho blocks of all particle rows in order (outer loop of line 303),
threading the generator position: each row advances it by
(attempts made) * nRho draws. -/
def rhoRows (g : ℕ → DrawDist → ℚ) (shape scale : ℚ) (nR : ℕ) :
    ℕ → ℕ → List (List ℚ × Bool)
  | 0, _ => []
  | n + 1, k =>
    ((drawRhoRow g shape scale nR k).1, (drawRhoRow g shape scale nR k).2.2) ::
      rhoRows g shape scale nR n (k + (drawRhoRow g shape scale nR k).2.1 * nR)

/-- Generator position after the beta loop of `generateParamsPrior`
(lines 253-262): `nParticles * nBeta` standard normal draws. -/
def spatialSEIRModel.genPrior_K1 (o : spatialSEIRModel) (nParticles : ℕ) : ℕ :=
  nParticles * o.nBeta

/-- Generator position after the transition loop (lines 263-285): 2 draws
per particle in exponential mode, 4 in weibull mode, none otherwise. -/
def spatialSEIRModel.genPrior_K2 (o : spatialSEIRModel) (nParticles : ℕ) : ℕ :=
  o.genPrior_K1 nParticles + nParticles * nTransOf o.transitionPriorsInstance.mode

/-- Generator position after the reinfection loop (lines 286-299):
`nParticles * nBetaRS` standard normal draws when reinfection is enabled
(`nBetaRS` is 0 otherwise). -/
def spatialSEIRModel.genPrior_K3 (o : spatialSEIRModel) (nParticles : ℕ) : ℕ :=
  o.genPrior_K2 nParticles + nParticles * o.nBetaRS

/-- The beta block of particle row `i` (lines 255-261): column `j` is
`betaPriorMean(j) + standardNormal / betaPriorPrecision(j)` with the
exposure-model priors. -/
def spatialSEIRModel.genPrior_betaRow (o : spatialSEIRModel)
    (g : ℕ → DrawDist → ℚ) (i : ℕ) : List ℚ :=
  (List.range o.nBeta).map (fun j =>
    o.exposureModelInstance.betaPriorMean.getD j 0 +
      g (i * o.nBeta + j) DrawDist.normal01 /
        o.exposureModelInstance.betaPriorPrecision.getD j 0)

/-- The betaRS block of particle row `i` (lines 287-299).  The source loop
runs `j` from `nBeta` to `nBeta + nBetaRS - 1` and indexes BOTH the output
column and the reinfection prior vectors with this offset `j`
(`betaPriorMean(j)`, `betaPriorPrecision(j)`): the prior entries consumed
are `nBeta .. nBeta + nBetaRS - 1`, not `0 .. nBetaRS - 1`.  The embedding
preserves that offset exactly (out-of-range accesses yield the default 0,
standing in for the out-of-bounds reads of the C++ code). -/
def spatialSEIRModel.genPrior_betaRSRow (o : spatialSEIRModel)
    (g : ℕ → DrawDist → ℚ) (nParticles i : ℕ) : List ℚ :=
  if o.hasReinfection then
    (List.range o.reinfectionModelInstance.X_rs.cols).map (fun t =>
      o.reinfectionModelInstance.betaPriorMean.getD (o.nBeta + t) 0 +
        g (o.genPrior_K2 nParticles + i * o.nBetaRS + t) DrawDist.normal01 /
          o.reinfectionModelInstance.betaPriorPrecision.getD (o.nBeta + t) 0)
  else []

/-- The transition block of particle row `i` (lines 225-249 build the
distributions, lines 264-285 draw): exponential mode draws 2 gamma variates
with shape row 0 and scale 1/(row 1) of the first column of each
hyperparameter matrix; weibull mode draws 4, adding the (row 2, row 3)
pair; path_specific draws none. -/
def spatialSEIRModel.genPrior_transRow (o : spatialSEIRModel)
    (g : ℕ → DrawDist → ℚ) (nParticles i : ℕ) : List ℚ :=
  if o.transitionPriorsInstance.mode = "exponential" then
    [g (o.genPrior_K1 nParticles + 2 * i)
        (DrawDist.gammaD (o.transitionPriorsInstance.E_to_I_params.entry 0 0)
          (1 / o.transitionPriorsInstance.E_to_I_params.entry 1 0)),
     g (o.genPrior_K1 nParticles + 2 * i + 1)
        (DrawDist.gammaD (o.transitionPriorsInstance.I_to_R_params.entry 0 0)
          (1 / o.transitionPriorsInstance.I_to_R_params.entry 1 0))]
  else if o.transitionPriorsInstance.mode = "weibull" then
    [g (o.genPrior_K1 nParticles + 4 * i)
        (DrawDist.gammaD (o.transitionPriorsInstance.E_to_I_params.entry 0 0)
          (1 / o.transitionPriorsInstance.E_to_I_params.entry 1 0)),
     g (o.genPrior_K1 nParticles + 4 * i + 1)
        (DrawDist.gammaD (o.transitionPriorsInstance.E_to_I_params.entry 2 0)
          (1 / o.transitionPriorsInstance.E_to_I_params.entry 3 0)),
     g (o.genPrior_K1 nParticles + 4 * i + 2)
        (DrawDist.gammaD (o.transitionPriorsInstance.I_to_R_params.entry 0 0)
          (1 / o.transitionPriorsInstance.I_to_R_params.entry 1 0)),
     g (o.genPrior_K1 nParticles + 4 * i + 3)
        (DrawDist.gammaD (o.transitionPriorsInstance.I_to_R_params.entry 2 0)
          (1 / o.transitionPriorsInstance.I_to_R_params.entry 3 0))]
  else []

/-- The rho blocks of all rows plus their degeneracy flags (lines 300-322):
drawn only when more than one location is modeled, with the spatial Beta
prior parameters as gamma shape `spatial_prior(0)` and scale
`1/spatial_prior(1)` (lines 218-220). -/
def spatialSEIRModel.genPrior_rhoData (o : spatialSEIRModel)
    (g : ℕ → DrawDist → ℚ) (nParticles : ℕ) : List (List ℚ × Bool) :=
  if o.hasSpatial then
    rhoRows g (o.distanceModelInstance.spatial_prior.getD 0 0)
      (1 / o.distanceModelInstance.spatial_prior.getD 1 0) o.nRho nParticles
      (o.genPrior_K3 nParticles)
  else List.replicate nParticles ([], false)

/-- `spatialSEIRModel::generateParamsPrior` (lines 194-323): the filled
particle matrix (row `i` laid out beta | betaRS | rho | transition) and the
per-row rho degeneracy flags.  Note two defects of the source this
embedding repairs to the spec's intent: line 212 allocates the output with
the undefined identifier `N` (and lacks a terminating semicolon), and the
function falls off the end at line 323 without returning `outParams`
although it is declared to return `Eigen::MatrixXd`; the fill loops
themselves all run over `nParticles` rows, which is the allocation and
return modelled here. -/
def spatialSEIRModel.generateParamsPrior (o : spatialSEIRModel)
    (g : ℕ → DrawDist → ℚ) (nParticles : ℕ) : List (List ℚ) × List Bool :=
  ((List.range nParticles).map (fun i =>
      o.genPrior_betaRow g i ++ o.genPrior_betaRSRow g nParticles i ++
        ((o.genPrior_rhoData g nParticles).getD i ([], false)).1 ++
        o.genPrior_transRow g nParticles i),
    (o.genPrior_rhoData g nParticles).map (fun p => p.2))

/-- `spatialSEIRModel::setParameters` (lines 325-343) as a state
transition: `Rcpp::stop` (the error) fires before any assignment, so on a
column-count mismatch the returned state is the unchanged receiver; on a
match the matrix is stored and `is_initialized` set. -/
def spatialSEIRModel.setParameters (o : spatialSEIRModel) (params : MatrixQ) :
    spatialSEIRModel × Option String :=
  if params.cols ≠ o.setParameters_nParams then
    (o, some "Number of supplied parameters does not match model specification.")
  else
    ({ o with param_matrix := params, is_initialized := true }, none)

/-- Where `evalPrior` starts reading the transition hyperparameters:
`paramIdx` after the beta, betaRS and rho loops (lines 360-390). -/
def spatialSEIRModel.evalBase (o : spatialSEIRModel) : ℕ :=
  o.nBeta + o.nBetaRS + o.nRho

/-- The transition factor of `evalPrior` (lines 392-411): exponential mode
multiplies two `R::dgamma` densities inline with shape row 0 and scale
1/(row 1) of each hyperparameter matrix; weibull mode delegates each
2-entry segment to the stored transition distribution objects through
`evalParamPrior`, modelled as the abstract evaluator `wEval` applied to
the object's own stored hyperparameter vector (the body of
`weibullTransitionDistribution::evalParamPrior` is outside `src/`);
path_specific contributes nothing. -/
def spatialSEIRModel.evalPrior_transFactor (o : spatialSEIRModel)
    (dgamma : ℚ → ℚ → ℚ → ℚ) (wEval : List ℚ → ℚ → ℚ → ℚ) (v : ℕ → ℚ) : ℚ :=
  if o.transitionPriorsInstance.mode = "exponential" then
    dgamma (v o.evalBase) (o.transitionPriorsInstance.E_to_I_params.entry 0 0)
        (1 / o.transitionPriorsInstance.E_to_I_params.entry 1 0) *
      dgamma (v (o.evalBase + 1)) (o.transitionPriorsInstance.I_to_R_params.entry 0 0)
        (1 / o.transitionPriorsInstance.I_to_R_params.entry 1 0)
  else if o.transitionPriorsInstance.mode = "weibull" then
    wEval o.EI_transition_dist.priorParams (v o.evalBase) (v (o.evalBase + 1)) *
      wEval o.IR_transition_dist.priorParams (v (o.evalBase + 2)) (v (o.evalBase + 3))
  else 1

/-- `spatialSEIRModel::evalPrior` (lines 345-413): the running product
`outPrior` over the fixed layout — `R::dnorm` per beta entry with the
exposure priors (mean `betaPriorMean(i)`, scale `1/betaPriorPrecision(i)`),
`R::dnorm` per betaRS entry with the reinfection priors at indices
`0..nBetaRS-1`, `R::dbeta(rho_i, spatial_prior(0), spatial_prior(1))` per
rho entry times the hard indicator `constr <= 1` when `nRho > 0`, then the
transition factor. -/
def spatialSEIRModel.evalPrior (o : spatialSEIRModel)
    (dnorm dbeta dgamma : ℚ → ℚ → ℚ → ℚ) (wEval : List ℚ → ℚ → ℚ → ℚ)
    (v : ℕ → ℚ) : ℚ :=
  prodR o.nBeta (fun i =>
      dnorm (v i) (o.exposureModelInstance.betaPriorMean.getD i 0)
        (1 / o.exposureModelInstance.betaPriorPrecision.getD i 0)) *
    prodR o.nBetaRS (fun i =>
      dnorm (v (o.nBeta + i)) (o.reinfectionModelInstance.betaPriorMean.getD i 0)
        (1 / o.reinfectionModelInstance.betaPriorPrecision.getD i 0)) *
    (if 0 < o.nRho then
      prodR o.nRho (fun i =>
          dbeta (v (o.nBeta + o.nBetaRS + i))
            (o.distanceModelInstance.spatial_prior.getD 0 0)
            (o.distanceModelInstance.spatial_prior.getD 1 0)) *
        (if sumR o.nRho (fun i => v (o.nBeta + o.nBetaRS + i)) ≤ 1 then 1 else 0)
    else 1) *
    o.evalPrior_transFactor dgamma wEval v

/-- `spatialSEIRModel::run_simulation` (lines 415-418): the body is the
comment `To-do: run simulation logic here` and nothing else, so the state
(result stores included) is returned untouched. -/
def spatialSEIRModel.run_simulation (o : spatialSEIRModel) (params : MatrixQ) :
    spatialSEIRModel :=
  o

/-- Algorithm code for basic ABC.  Modelled from the spec (the `ALG_*`
constants live in a header outside `src/`): the constructor's own error
message, "must be ... equal to 1 or 2 or 3", pins the three codes. -/
def ALG_BasicABC : ℤ := 1

/-- Algorithm code for the Beaumont 2009 sequential sampler (see
`ALG_BasicABC` for the modelling of the value). -/
def ALG_ModifiedBeaumont2009 : ℤ := 2

/-- Algorithm code for the Del Moral 2012 adaptive sampler (see
`ALG_BasicABC` for the modelling of the value). -/
def ALG_DelMoral2012 : ℤ := 3

/-- `samplingControl::samplingControl` (lines 447-490): length check on the
fixed block, field parse, algorithm-code check, `max_batches` check.  The
reference count `prot` of a freshly built object is 0. -/
def samplingControl.construct (integerParameters : List ℤ)
    (numericParameters : List ℚ) : Except String samplingControl :=
  if integerParameters.length ≠ 9 ∨ numericParameters.length ≠ 3 then
    Except.error "Exactly 12 samplingControl parameters are required."
  else if integerParameters.getD 3 0 ≠ ALG_BasicABC ∧
      integerParameters.getD 3 0 ≠ ALG_ModifiedBeaumont2009 ∧
      integerParameters.getD 3 0 ≠ ALG_DelMoral2012 then
    Except.error "Algorithm specification must be of length 1 and equal to 1 or 2 or 3."
  else if integerParameters.getD 6 0 ≤ 0 then
    Except.error "max_batches must be greater than zero."
  else
    Except.ok
      { compType := LSS_SAMPLING_CONTROL_MODEL_TYPE
        simulation_width := integerParameters.getD 0 0
        random_seed := integerParameters.getD 1 0
        CPU_cores := integerParameters.getD 2 0
        algorithm := integerParameters.getD 3 0
        batch_size := integerParameters.getD 4 0
        epochs := integerParameters.getD 5 0
        max_batches := integerParameters.getD 6 0
        multivariatePerturbation := decide (integerParameters.getD 7 0 ≠ 0)
        m := integerParameters.getD 8 0
        accept_fraction := numericParameters.getD 0 0
        shrinkage := numericParameters.getD 1 0
        target_eps := numericParameters.getD 2 0
        prot := 0 }

/-- `samplingControl::~samplingControl` (lines 492-497): destruction fails
while the object is still referenced (`prot != 0`). -/
def samplingControl.destruct (sc : samplingControl) : Except String Unit :=
  if sc.prot ≠ 0 then
    Except.error "cannot delete samplingControl, still being used."
  else Except.ok ()

/-- The mutating operations the samplingControl host binding exposes:
`RCPP_MODULE(mod_samplingControl)` (lines 504-509) registers only the
constructor — no setter, method or field, so a constructed object is
immutable through the exposed surface. -/
def samplingControl.exposedMutators : List String := []

/-- The end-to-end fixture of spec section 8: 3 locations, 10 time points,
2 exposure covariates, reinfection disabled (mode 3, zero first prior
precision), one base distance matrix plus one lagged matrix per time point,
spatial prior (1,1), exponential transition mode; the expected parameter
count is 2 (beta) + 0 + 2 (rho) + 2 (transition) = 6. -/
def egOrch : spatialSEIRModel where
  dataModelInstance := ⟨LSS_DATA_MODEL_TYPE, 3, 10, ⟨10, 3, fun _ _ => 1⟩⟩
  exposureModelInstance :=
    ⟨LSS_EXPOSURE_MODEL_TYPE, 3, 10, ⟨30, 2, fun _ _ => 1⟩, [0, 0], [1, 1]⟩
  reinfectionModelInstance :=
    ⟨LSS_REINFECTION_MODEL_TYPE, 3, ⟨10, 1, fun _ _ => 0⟩, [0], [0]⟩
  distanceModelInstance :=
    ⟨LSS_DISTANCE_MODEL_TYPE, 3, [⟨3, 3, fun _ _ => 0⟩],
      List.replicate 10 [⟨3, 3, fun _ _ => 0⟩], [1, 1]⟩
  transitionPriorsInstance :=
    ⟨LSS_TRANSITION_MODEL_TYPE, "exponential", ⟨4, 1, fun _ _ => 1⟩,
      ⟨4, 1, fun _ _ => 1⟩⟩
  initialValueContainerInstance :=
    ⟨LSS_INIT_CONTAINER_TYPE, [100, 100, 100], [0, 0, 0], [0, 0, 0], [0, 0, 0]⟩
  samplingControlInstance :=
    ⟨LSS_SAMPLING_CONTROL_MODEL_TYPE, 1, 42, 1, ALG_BasicABC, 10, 1, 10, false, 1,
      1 / 10, 1 / 2, 0, 0⟩
  EI_transition_dist := ⟨[1, 1, 1, 1]⟩
  IR_transition_dist := ⟨[1, 1, 1, 1]⟩
  is_initialized := false
  param_matrix := ⟨0, 0, fun _ _ => 0⟩
  results_double := ⟨10, 1, fun _ _ => 0⟩
  results_complete := []
  result_idx := []
  worker_pool := ⟨1, 42, 1⟩

/-- A small configuration exposing the reinfection-prior indexing of
`generateParamsPrior`: one exposure covariate (prior mean 1, precision 1)
and one reinfection covariate with prior mean vector [5] and precision
vector [1]; no spatial block, path_specific mode, so the layout is
beta | betaRS with nParams = 2. -/
def c5Orch : spatialSEIRModel where
  dataModelInstance := ⟨LSS_DATA_MODEL_TYPE, 1, 2, ⟨2, 1, fun _ _ => 1⟩⟩
  exposureModelInstance :=
    ⟨LSS_EXPOSURE_MODEL_TYPE, 1, 2, ⟨2, 1, fun _ _ => 1⟩, [1], [1]⟩
  reinfectionModelInstance :=
    ⟨LSS_REINFECTION_MODEL_TYPE, 1, ⟨2, 1, fun _ _ => 1⟩, [5], [1]⟩
  distanceModelInstance := ⟨LSS_DISTANCE_MODEL_TYPE, 1, [], [[], []], [1, 1]⟩
  transitionPriorsInstance :=
    ⟨LSS_TRANSITION_MODEL_TYPE, "path_specific", ⟨4, 1, fun _ _ => 1⟩,
      ⟨4, 1, fun _ _ => 1⟩⟩
  initialValueContainerInstance := ⟨LSS_INIT_CONTAINER_TYPE, [10], [0], [0], [0]⟩
  samplingControlInstance :=
    ⟨LSS_SAMPLING_CONTROL_MODEL_TYPE, 1, 1, 1, ALG_BasicABC, 1, 1, 1, false, 1,
      1 / 10, 1 / 2, 0, 0⟩
  EI_transition_dist := ⟨[1, 1, 1, 1]⟩
  IR_transition_dist := ⟨[1, 1, 1, 1]⟩
  is_initialized := false
  param_matrix := ⟨0, 0, fun _ _ => 0⟩
  results_double := ⟨1, 1, fun _ _ => 0⟩
  results_complete := []
  result_idx := []
  worker_pool := ⟨1, 1, 1⟩

/-- Pointwise congruence for the range products of `evalPrior`. -/
theorem prodR_congr {n : ℕ} {f f' : ℕ → ℚ} (h : ∀ i, i < n → f i = f' i) :
    prodR n f = prodR n f' := by
  unfold prodR
  rw [List.map_congr_left fun a ha => h a (List.mem_range.mp ha)]

/-- Pointwise congruence for the range sums of `evalPrior`. -/
theorem sumR_congr {n : ℕ} {f f' : ℕ → ℚ} (h : ∀ i, i < n → f i = f' i) :
    sumR n f = sumR n f' := by
  unfold sumR
  rw [List.map_congr_left fun a ha => h a (List.mem_range.mp ha)]

/-- C1: for any fixed configuration, the parameter count nParams
(nBeta + nBetaRS + nRho + nTrans, with nBetaRS counted only when the first
reinfection prior precision is positive, nRho only when spatial is enabled,
and nTrans = 2 / 4 / 0 for exponential / weibull / path_specific) is
computed identically by `generateParamsPrior`, `setParameters` and
`evalPrior`; for `evalPrior` the count is the number of parameter-vector
entries it consumes, witnessed by the fact that its value depends on no
entry at an index at or beyond that count. -/
theorem claim_nParams_agree (o : spatialSEIRModel) :
    o.generateParamsPrior_nParams = o.setParameters_nParams ∧
    o.setParameters_nParams = o.evalPrior_nConsumed ∧
    ∀ (dn db dg : ℚ → ℚ → ℚ → ℚ) (wE : List ℚ → ℚ → ℚ → ℚ) (v v' : ℕ → ℚ),
      (∀ i, i < o.evalPrior_nConsumed → v i = v' i) →
      o.evalPrior dn db dg wE v = o.evalPrior dn db dg wE v' := by
  refine ⟨rfl, rfl, ?_⟩
  intro dn db dg wE v v' hv
  have hcons : o.nBeta + o.nBetaRS + o.nRho ≤ o.evalPrior_nConsumed := by
    unfold spatialSEIRModel.evalPrior_nConsumed
    omega
  have h1 : prodR o.nBeta (fun i =>
        dn (v i) (o.exposureModelInstance.betaPriorMean.getD i 0)
          (1 / o.exposureModelInstance.betaPriorPrecision.getD i 0)) =
      prodR o.nBeta (fun i =>
        dn (v' i) (o.exposureModelInstance.betaPriorMean.getD i 0)
          (1 / o.exposureModelInstance.betaPriorPrecision.getD i 0)) :=
    prodR_congr fun i hi => by rw [hv i (by omega)]
  have h2 : prodR o.nBetaRS (fun i =>
        dn (v (o.nBeta + i)) (o.reinfectionModelInstance.betaPriorMean.getD i 0)
          (1 / o.reinfectionModelInstance.betaPriorPrecision.getD i 0)) =
      prodR o.nBetaRS (fun i =>
        dn (v' (o.nBeta + i)) (o.reinfectionModelInstance.betaPriorMean.getD i 0)
          (1 / o.reinfectionModelInstance.betaPriorPrecision.getD i 0)) :=
    prodR_congr fun i hi => by rw [hv (o.nBeta + i) (by omega)]
  have h3 : prodR o.nRho (fun i =>
        db (v (o.nBeta + o.nBetaRS + i))
          (o.distanceModelInstance.spatial_prior.getD 0 0)
          (o.distanceModelInstance.spatial_prior.getD 1 0)) =
      prodR o.nRho (fun i =>
        db (v' (o.nBeta + o.nBetaRS + i))
          (o.distanceModelInstance.spatial_prior.getD 0 0)
          (o.distanceModelInstance.spatial_prior.getD 1 0)) :=
    prodR_congr fun i hi => by rw [hv (o.nBeta + o.nBetaRS + i) (by omega)]
  have hs : sumR o.nRho (fun i => v (o.nBeta + o.nBetaRS + i)) =
      sumR o.nRho (fun i => v' (o.nBeta + o.nBetaRS + i)) :=
    sumR_congr fun i hi => by rw [hv (o.nBeta + o.nBetaRS + i) (by omega)]
  have hbase : o.evalBase = o.nBeta + o.nBetaRS + o.nRho := rfl
  have h4 : o.evalPrior_transFactor dg wE v = o.evalPrior_transFactor dg wE v' := by
    unfold spatialSEIRModel.evalPrior_transFactor
    split_ifs with hm hm'
    · have ht : o.evalPrior_nConsumed = o.nBeta + o.nBetaRS + o.nRho + 2 := by
        unfold spatialSEIRModel.evalPrior_nConsumed
        rw [if_pos hm]
      rw [hv o.evalBase (by omega), hv (o.evalBase + 1) (by omega)]
    · have ht : o.evalPrior_nConsumed = o.nBeta + o.nBetaRS + o.nRho + 4 := by
        unfold spatialSEIRModel.evalPrior_nConsumed
        rw [if_neg hm, if_pos hm']
      rw [hv o.evalBase (by omega), hv (o.evalBase + 1) (by omega),
        hv (o.evalBase + 2) (by omega), hv (o.evalBase + 3) (by omega)]
    · rfl
  unfold spatialSEIRModel.evalPrior
  rw [h1, h2, h3, hs, h4]

/-- Witness for C1 at the end-to-end fixture: the consumed count is 6, and
two parameter vectors agreeing on entries 0..5 but differing beyond give
the same prior value. -/
theorem claim_nParams_agree_witness :
    spatialSEIRModel.evalPrior egOrch (fun x _ _ => x) (fun x _ _ => x)
        (fun x _ _ => x) (fun _ x _ => x) (fun i => if i < 6 then 1 else 7) =
      spatialSEIRModel.evalPrior egOrch (fun x _ _ => x) (fun x _ _ => x)
        (fun x _ _ => x) (fun _ x _ => x) (fun i => if i < 6 then 1 else 9) :=
  (claim_nParams_agree egOrch).2.2 _ _ _ _ _ _ (by
    intro i hi
    have h6 : egOrch.evalPrior_nConsumed = 6 := by decide
    rw [h6] at hi
    simp [hi])

/-- C3: `setParameters` fails (raises the configuration error) when the
supplied matrix's column count differs from nParams, and in that case the
orchestrator state — in particular `param_matrix` and `is_initialized` —
is unchanged; when the column count matches, the matrix is stored and
`is_initialized` becomes true with no error. -/
theorem claim_setParameters_validation (o : spatialSEIRModel) (params : MatrixQ) :
    (params.cols ≠ o.setParameters_nParams →
      (o.setParameters params).2.isSome = true ∧
      (o.setParameters params).1.param_matrix = o.param_matrix ∧
      (o.setParameters params).1.is_initialized = o.is_initialized ∧
      (o.setParameters params).1 = o) ∧
    (params.cols = o.setParameters_nParams →
      (o.setParameters params).2 = none ∧
      (o.setParameters params).1.param_matrix = params ∧
      (o.setParameters params).1.is_initialized = true) := by
  unfold spatialSEIRModel.setParameters
  constructor
  · intro h
    rw [if_pos h]
    exact ⟨rfl, rfl, rfl, rfl⟩
  · intro h
    rw [if_neg (fun hc => hc h)]
    exact ⟨rfl, rfl, rfl⟩

/-- Witness for C3 at the end-to-end fixture (nParams = 6): a 4x5 matrix is
rejected leaving the flag untouched, a 4x6 matrix is accepted and stored. -/
theorem claim_setParameters_validation_witness :
    ((MatrixQ.mk 4 5 fun _ _ => 0).cols ≠ egOrch.setParameters_nParams ∧
      (egOrch.setParameters ⟨4, 5, fun _ _ => 0⟩).2.isSome = true ∧
      (egOrch.setParameters ⟨4, 5, fun _ _ => 0⟩).1.is_initialized =
        egOrch.is_initialized) ∧
    ((MatrixQ.mk 4 6 fun _ _ => 0).cols = egOrch.setParameters_nParams ∧
      (egOrch.setParameters ⟨4, 6, fun _ _ => 0⟩).2 = none ∧
      (egOrch.setParameters ⟨4, 6, fun _ _ => 0⟩).1.is_initialized = true) := by
  have h5 : (MatrixQ.mk 4 5 fun _ _ => 0).cols ≠ egOrch.setParameters_nParams := by
    decide
  have h6 : (MatrixQ.mk 4 6 fun _ _ => 0).cols = egOrch.setParameters_nParams := by
    decide
  have w5 := (claim_setParameters_validation egOrch ⟨4, 5, fun _ _ => 0⟩).1 h5
  have w6 := (claim_setParameters_validation egOrch ⟨4, 6, fun _ _ => 0⟩).2 h6
  exact ⟨⟨h5, w5.1, w5.2.2.1⟩, ⟨h6, w6.1, w6.2.2⟩⟩

set_option maxHeartbeats 1000000 in
/-- C4: orchestrator construction succeeds exactly when none of the listed
validation conditions holds — handle discriminants out of place, location
or time-point count disagreements, lagged-matrix list count or length
inconsistencies, initial-compartment length mismatch, reinfection
covariate row mismatch (checked only when the reinfection mode is not the
disabled value 3), or an invalid transition mode; on failure the
`Except.error` branch carries no orchestrator at all, so no partially
constructed state (in particular no worker pool) is observable. -/
theorem claim_constructor_validation (d : dataModel) (e : exposureModel)
    (r : reinfectionModel) (ds : distanceModel) (tp : transitionPriors)
    (iv : initialValueContainer) (sc : samplingControl) :
    (∃ o, spatialSEIRModel.construct d e r ds tp iv sc = Except.ok o) ↔
    ¬((d.compType ≠ LSS_DATA_MODEL_TYPE ∨ e.compType ≠ LSS_EXPOSURE_MODEL_TYPE ∨
        r.compType ≠ LSS_REINFECTION_MODEL_TYPE ∨
        ds.compType ≠ LSS_DISTANCE_MODEL_TYPE ∨
        tp.compType ≠ LSS_TRANSITION_MODEL_TYPE ∨
        iv.compType ≠ LSS_INIT_CONTAINER_TYPE ∨
        sc.compType ≠ LSS_SAMPLING_CONTROL_MODEL_TYPE) ∨
      d.nLoc ≠ e.nLoc ∨ d.nTpt ≠ e.nTpt ∨ d.nLoc ≠ ds.numLocations ∨
      ds.tdm_list.length ≠ d.nTpt ∨
      (∃ l ∈ ds.tdm_list, l.length ≠ (ds.tdm_list.getD 0 []).length) ∨
      d.nLoc ≠ iv.S0.length ∨
      (r.reinfectionMode ≠ 3 ∧ r.X_rs.rows ≠ d.nTpt) ∨
      (tp.mode ≠ "exponential" ∧ tp.mode ≠ "path_specific" ∧
        tp.mode ≠ "weibull")) := by
  have herr : ∀ (s : String),
      ¬ ∃ o, (Except.error s : Except String spatialSEIRModel) = Except.ok o := by
    rintro s ⟨o, ho⟩
    exact Except.noConfusion ho
  unfold spatialSEIRModel.construct
  by_cases h1 : d.compType ≠ LSS_DATA_MODEL_TYPE ∨ e.compType ≠ LSS_EXPOSURE_MODEL_TYPE ∨
      r.compType ≠ LSS_REINFECTION_MODEL_TYPE ∨ ds.compType ≠ LSS_DISTANCE_MODEL_TYPE ∨
      tp.compType ≠ LSS_TRANSITION_MODEL_TYPE ∨ iv.compType ≠ LSS_INIT_CONTAINER_TYPE ∨
      sc.compType ≠ LSS_SAMPLING_CONTROL_MODEL_TYPE
  · rw [if_pos h1]
    exact iff_of_false (herr _) (not_not_intro (Or.inl h1))
  rw [if_neg h1]
  by_cases h2 : d.nLoc ≠ e.nLoc
  · rw [if_pos h2]
    exact iff_of_false (herr _) (not_not_intro (Or.inr (Or.inl h2)))
  rw [if_neg h2]
  by_cases h3 : d.nTpt ≠ e.nTpt
  · rw [if_pos h3]
    exact iff_of_false (herr _) (not_not_intro (Or.inr (Or.inr (Or.inl h3))))
  rw [if_neg h3]
  by_cases h4 : d.nLoc ≠ ds.numLocations
  · rw [if_pos h4]
    exact iff_of_false (herr _) (not_not_intro (Or.inr (Or.inr (Or.inr (Or.inl h4)))))
  rw [if_neg h4]
  by_cases h5 : ds.tdm_list.length ≠ d.nTpt
  · rw [if_pos h5]
    exact iff_of_false (herr _)
      (not_not_intro (Or.inr (Or.inr (Or.inr (Or.inr (Or.inl h5))))))
  rw [if_neg h5]
  by_cases h6 : ∃ l ∈ ds.tdm_list, l.length ≠ (ds.tdm_list.getD 0 []).length
  · rw [if_pos h6]
    exact iff_of_false (herr _)
      (not_not_intro (Or.inr (Or.inr (Or.inr (Or.inr (Or.inr (Or.inl h6)))))))
  rw [if_neg h6]
  by_cases h7 : d.nLoc ≠ iv.S0.length
  · rw [if_pos h7]
    exact iff_of_false (herr _)
      (not_not_intro (Or.inr (Or.inr (Or.inr (Or.inr (Or.inr (Or.inr (Or.inl h7))))))))
  rw [if_neg h7]
  by_cases h8 : r.reinfectionMode ≠ 3 ∧ r.X_rs.rows ≠ d.nTpt
  · rw [if_pos h8]
    exact iff_of_false (herr _)
      (not_not_intro
        (Or.inr (Or.inr (Or.inr (Or.inr (Or.inr (Or.inr (Or.inr (Or.inl h8)))))))))
  rw [if_neg h8]
  by_cases h9 : tp.mode ≠ "exponential" ∧ tp.mode ≠ "path_specific" ∧ tp.mode ≠ "weibull"
  · rw [if_pos h9]
    exact iff_of_false (herr _)
      (not_not_intro
        (Or.inr (Or.inr (Or.inr (Or.inr (Or.inr (Or.inr (Or.inr (Or.inr h9)))))))))
  rw [if_neg h9]
  refine iff_of_true ⟨_, rfl⟩ ?_
  rintro (h | h | h | h | h | h | h | h | h)
  exacts [h1 h, h2 h, h3 h, h4 h, h5 h, h6 h, h7 h, h8 h, h9 h]

/-- Helper: reading a replicated list with the replicated element as
default always yields that element. -/
theorem list_getD_replicate {α : Type} (n i : ℕ) (a : α) :
    (List.replicate n a).getD i a = a := by
  induction n generalizing i with
  | zero => simp
  | succ m ih =>
    cases i with
    | zero => simp
    | succ j => simpa using ih j

/-- The retry loop always keeps a block of exactly `nR` gamma draws. -/
theorem rhoTryAux_fst_length (g : ℕ → DrawDist → ℚ) (s c : ℚ) (nR k : ℕ) :
    ∀ fuel a, 0 < fuel → ((rhoTryAux g s c nR k fuel a).1).length = nR := by
  intro fuel
  induction fuel with
  | zero => intro a h; omega
  | succ f ih =>
    intro a _
    by_cases h1 : (rhoAttempt g s c nR k a).sum ≤ 1
    · simp only [rhoTryAux, if_pos h1]
      simp [rhoAttempt]
    · by_cases h2 : f = 0
      · simp only [rhoTryAux, if_neg h1, if_pos h2]
        simp [rhoAttempt]
      · simp only [rhoTryAux, if_neg h1, if_neg h2]
        exact ih (a + 1) (Nat.pos_of_ne_zero h2)

/-- Every kept rho block in `rhoRows` has exactly `nR` entries. -/
theorem rhoRows_getD_length (g : ℕ → DrawDist → ℚ) (s c : ℚ) (nR : ℕ) :
    ∀ n k i, i < n →
      ((((rhoRows g s c nR n k).getD i ([], false))).1).length = nR := by
  intro n
  induction n with
  | zero => intro k i h; omega
  | succ m ih =>
    intro k i h
    cases i with
    | zero =>
      simp only [rhoRows, List.getD_cons_zero, drawRhoRow]
      exact rhoTryAux_fst_length g s c nR k 100 0 (by omega)
    | succ j =>
      simp only [rhoRows, List.getD_cons_succ]
      exact ih _ j (by omega)

/-- The length of one assembled row of `generateParamsPrior` is the
nParams of the configuration. -/
theorem genPrior_row_length (o : spatialSEIRModel) (g : ℕ → DrawDist → ℚ)
    (n i : ℕ) (hi : i < n) :
    (o.genPrior_betaRow g i ++ o.genPrior_betaRSRow g n i ++
        ((o.genPrior_rhoData g n).getD i ([], false)).1 ++
        o.genPrior_transRow g n i).length = o.generateParamsPrior_nParams := by
  have hb : (o.genPrior_betaRow g i).length = o.nBeta := by
    simp [spatialSEIRModel.genPrior_betaRow]
  have hrs : (o.genPrior_betaRSRow g n i).length = o.nBetaRS := by
    cases hR : o.hasReinfection <;>
      simp [spatialSEIRModel.genPrior_betaRSRow, spatialSEIRModel.nBetaRS, hR]
  have hrho : (((o.genPrior_rhoData g n).getD i ([], false)).1).length = o.nRho := by
    unfold spatialSEIRModel.genPrior_rhoData
    cases hS : o.hasSpatial
    · have h0 : o.nRho = 0 := by simp [spatialSEIRModel.nRho, hS]
      simp only [Bool.false_eq_true, if_neg, ite_false, list_getD_replicate, h0]
      rfl
    · simp only [ite_true, if_pos]
      exact rhoRows_getD_length _ _ _ _ n _ i hi
  have ht : (o.genPrior_transRow g n i).length =
      nTransOf o.transitionPriorsInstance.mode := by
    unfold spatialSEIRModel.genPrior_transRow nTransOf
    split_ifs <;> simp
  rw [List.length_append, List.length_append, List.length_append, hb, hrs, hrho, ht,
    spatialSEIRModel.generateParamsPrior_nParams]

/-- C2 (evidence for the code_bug record): the particle matrix that the
fill loops of `generateParamsPrior` produce has `nParticles` rows, every
one of length nParams.  The source itself allocates the output with the
undefined identifier `N` (line 212, which also lacks its semicolon) and
falls off the end of the function without returning `outParams` (line 323)
although it is declared to return the matrix; this theorem is about the
intended value modelled in `spatialSEIRModel.generateParamsPrior`
(entries are rationals, so finiteness has no floating-point content to
check). -/
theorem claim_generateParamsPrior_shape (o : spatialSEIRModel)
    (g : ℕ → DrawDist → ℚ) (nParticles : ℕ) :
    (o.generateParamsPrior g nParticles).1.length = nParticles ∧
    (o.generateParamsPrior g nParticles).1.map List.length =
      List.replicate nParticles o.generateParamsPrior_nParams := by
  constructor
  · simp [spatialSEIRModel.generateParamsPrior]
  · unfold spatialSEIRModel.generateParamsPrior
    rw [List.map_map]
    apply List.eq_replicate_iff.mpr
    refine ⟨by simp, ?_⟩
    intro b hb
    obtain ⟨i, hi, rfl⟩ := List.mem_map.mp hb
    exact genPrior_row_length o g nParticles i (List.mem_range.mp hi)

/-- Full characterization of the rho retry loop: starting at attempt `a`
with `fuel` iterations allowed, either some attempt in range succeeds (sum
at most 1) — then the first such attempt is kept, with no degeneracy flag —
or every attempt in range fails and the last one is kept with the flag
set. -/
theorem rhoTryAux_spec (g : ℕ → DrawDist → ℚ) (s c : ℚ) (nR k : ℕ) :
    ∀ fuel a, 0 < fuel →
      (((rhoTryAux g s c nR k fuel a).2.2 = false →
        ∃ t, a ≤ t ∧ t < a + fuel ∧
          rhoTryAux g s c nR k fuel a = (rhoAttempt g s c nR k t, t + 1, false) ∧
          (rhoAttempt g s c nR k t).sum ≤ 1 ∧
          ∀ b, a ≤ b → b < t → 1 < (rhoAttempt g s c nR k b).sum) ∧
      ((rhoTryAux g s c nR k fuel a).2.2 = true →
        rhoTryAux g s c nR k fuel a =
          (rhoAttempt g s c nR k (a + fuel - 1), a + fuel, true) ∧
        ∀ b, a ≤ b → b < a + fuel → 1 < (rhoAttempt g s c nR k b).sum)) := by
  intro fuel
  induction fuel with
  | zero => intro a h; omega
  | succ f ih =>
    intro a _
    by_cases h1 : (rhoAttempt g s c nR k a).sum ≤ 1
    · constructor
      · intro _
        refine ⟨a, le_refl a, by omega, ?_, h1, ?_⟩
        · simp only [rhoTryAux, if_pos h1]
        · intro b hb hb'
          omega
      · intro htrue
        simp only [rhoTryAux, if_pos h1] at htrue
        exact absurd htrue (by simp)
    · by_cases h2 : f = 0
      · subst h2
        constructor
        · intro hfalse
          simp only [rhoTryAux, if_neg h1] at hfalse
          norm_num at hfalse
        · intro _
          constructor
          · simp only [rhoTryAux, if_neg h1]
            norm_num
          · intro b hb hb'
            have hba : b = a := by omega
            subst hba
            exact not_le.mp h1
      · have hres : rhoTryAux g s c nR k (f + 1) a = rhoTryAux g s c nR k f (a + 1) := by
          simp only [rhoTryAux, if_neg h1, if_neg h2]
        obtain ⟨ihf, iht⟩ := ih (a + 1) (Nat.pos_of_ne_zero h2)
        constructor
        · intro hfalse
          rw [hres] at hfalse ⊢
          obtain ⟨t, ht1, ht2, ht3, ht4, ht5⟩ := ihf hfalse
          refine ⟨t, by omega, by omega, ht3, ht4, ?_⟩
          intro b hb hb'
          rcases Nat.eq_or_lt_of_le hb with hba | hlt
          · rw [← hba]
            exact not_le.mp h1
          · exact ht5 b hlt hb'
        · intro htrue
          rw [hres] at htrue ⊢
          obtain ⟨ht1, ht2⟩ := iht htrue
          constructor
          · rw [ht1]
            have e1 : a + 1 + f - 1 = a + (f + 1) - 1 := by omega
            have e2 : a + 1 + f = a + (f + 1) := by omega
            rw [e1, e2]
          · intro b hb hb'
            rcases Nat.eq_or_lt_of_le hb with hba | hlt
            · rw [← hba]
              exact not_le.mp h1
            · exact ht2 b hlt (by omega)

/-- C6: the rho block of `generateParamsPrior` is drawn exactly when more
than one location is modeled (`hasSpatial`), each entry from
Gamma(shape = spatial_prior[0], scale = 1/spatial_prior[1]); per particle
row the whole block is redrawn up to 100 times until its sum is at most 1
(the first passing attempt is kept); and when all 100 attempts fail the
last draw is kept together with the degeneracy flag — the diagnostic print
of the source — while the function still returns normally (no error
value). -/
theorem claim_rho_retry (o : spatialSEIRModel) (g g' : ℕ → DrawDist → ℚ)
    (nParticles : ℕ) (s c : ℚ) (nR k : ℕ) :
    (o.genPrior_rhoData g nParticles =
      if o.hasSpatial then
        rhoRows g (o.distanceModelInstance.spatial_prior.getD 0 0)
          (1 / o.distanceModelInstance.spatial_prior.getD 1 0) o.nRho nParticles
          (o.genPrior_K3 nParticles)
      else List.replicate nParticles ([], false)) ∧
    ((drawRhoRow g' s c nR k).2.2 = false →
      ∃ t, t < 100 ∧
        drawRhoRow g' s c nR k = (rhoAttempt g' s c nR k t, t + 1, false) ∧
        (rhoAttempt g' s c nR k t).sum ≤ 1 ∧
        ∀ b, b < t → 1 < (rhoAttempt g' s c nR k b).sum) ∧
    ((drawRhoRow g' s c nR k).2.2 = true →
      drawRhoRow g' s c nR k = (rhoAttempt g' s c nR k 99, 100, true) ∧
      ∀ b, b < 100 → 1 < (rhoAttempt g' s c nR k b).sum) := by
  refine ⟨rfl, ?_, ?_⟩
  · intro hf
    unfold drawRhoRow at hf ⊢
    obtain ⟨t, ht1, ht2, ht3, ht4, ht5⟩ :=
      (rhoTryAux_spec g' s c nR k 100 0 (by omega)).1 hf
    exact ⟨t, by omega, ht3, ht4, fun b hb => ht5 b (Nat.zero_le b) hb⟩
  · intro ht
    unfold drawRhoRow at ht ⊢
    obtain ⟨h1, h2⟩ := (rhoTryAux_spec g' s c nR k 100 0 (by omega)).2 ht
    norm_num at h1
    exact ⟨h1, fun b hb => h2 b (Nat.zero_le b) (by omega)⟩

/-- Witness for C6: with all gamma draws equal to 1/10 and a 2-entry block,
the first attempt already sums below 1 and is kept without the flag; with
all draws equal to 1 every attempt sums to 2, so after 100 attempts the
last draw is kept and the flag is set, and the call still returns a
value. -/
theorem claim_rho_retry_witness :
    ((drawRhoRow (fun _ _ => (1 : ℚ) / 10) 1 1 2 0).2.2 = false ∧
      ∃ t, t < 100 ∧
        drawRhoRow (fun _ _ => (1 : ℚ) / 10) 1 1 2 0 =
          (rhoAttempt (fun _ _ => (1 : ℚ) / 10) 1 1 2 0 t, t + 1, false) ∧
        (rhoAttempt (fun _ _ => (1 : ℚ) / 10) 1 1 2 0 t).sum ≤ 1 ∧
        ∀ b, b < t → 1 < (rhoAttempt (fun _ _ => (1 : ℚ) / 10) 1 1 2 0 b).sum) ∧
    ((drawRhoRow (fun _ _ => (1 : ℚ)) 1 1 2 0).2.2 = true ∧
      drawRhoRow (fun _ _ => (1 : ℚ)) 1 1 2 0 =
        (rhoAttempt (fun _ _ => (1 : ℚ)) 1 1 2 0 99, 100, true) ∧
      ∀ b, b < 100 → 1 < (rhoAttempt (fun _ _ => (1 : ℚ)) 1 1 2 0 b).sum) := by
  have hsmall : ∀ b, (rhoAttempt (fun _ _ => (1 : ℚ) / 10) 1 1 2 0 b).sum ≤ 1 := by
    intro b
    simp [rhoAttempt, List.range_succ]
    try norm_num
  have hbig : ∀ b, 1 < (rhoAttempt (fun _ _ => (1 : ℚ)) 1 1 2 0 b).sum := by
    intro b
    simp [rhoAttempt, List.range_succ]
    try norm_num
  have hf : (drawRhoRow (fun _ _ => (1 : ℚ) / 10) 1 1 2 0).2.2 = false := by
    cases hfl : (drawRhoRow (fun _ _ => (1 : ℚ) / 10) 1 1 2 0).2.2
    · rfl
    · exfalso
      obtain ⟨_, hall⟩ :=
        (claim_rho_retry egOrch (fun _ _ => 0) (fun _ _ => (1 : ℚ) / 10) 1 1 1 2 0).2.2 hfl
      exact absurd (hsmall 0) (not_le.mpr (hall 0 (by omega)))
  have ht : (drawRhoRow (fun _ _ => (1 : ℚ)) 1 1 2 0).2.2 = true := by
    cases hfl : (drawRhoRow (fun _ _ => (1 : ℚ)) 1 1 2 0).2.2
    · exfalso
      obtain ⟨t, _, _, hle, _⟩ :=
        (claim_rho_retry egOrch (fun _ _ => 0) (fun _ _ => (1 : ℚ)) 1 1 1 2 0).2.1 hfl
      exact absurd hle (not_le.mpr (hbig t))
    · rfl
  constructor
  · exact ⟨hf,
      (claim_rho_retry egOrch (fun _ _ => 0) (fun _ _ => (1 : ℚ) / 10) 1 1 1 2 0).2.1 hf⟩
  · exact ⟨ht,
      (claim_rho_retry egOrch (fun _ _ => 0) (fun _ _ => (1 : ℚ)) 1 1 1 2 0).2.2 ht⟩

/-- C5 (evidence for the code_bug record): the betaRS sampling loop of
`generateParamsPrior` consumes reinfection prior entries at the offset
indices nBeta..nBeta+nBetaRS-1 (its loop variable doubles as output column
and prior index), while `evalPrior` consumes entries 0..nBetaRS-1.  At the
`c5Orch` configuration (nBeta = 1, nBetaRS = 1, reinfection prior mean
vector [5], precision vector [1]) with all random draws equal to 0: the
sampled betaRS column centers at 0 — the out-of-range prior entry at index
1 — instead of the prior mean 5, which is exactly what `evalPrior` (probed
with a density returning its mean argument) consumes at index 0. -/
theorem claim_betaRS_prior_index_bug :
    (c5Orch.generateParamsPrior (fun _ _ => 0) 1).1 = [[1, 0]] ∧
    c5Orch.evalPrior (fun _ m _ => m) (fun _ _ _ => 1) (fun _ _ _ => 1)
      (fun _ _ _ => 1) (fun _ => 0) = 5 := by
  constructor
  · norm_num [spatialSEIRModel.generateParamsPrior, spatialSEIRModel.genPrior_betaRow,
      spatialSEIRModel.genPrior_betaRSRow, spatialSEIRModel.genPrior_rhoData,
      spatialSEIRModel.genPrior_transRow, spatialSEIRModel.genPrior_K1,
      spatialSEIRModel.genPrior_K2, spatialSEIRModel.genPrior_K3,
      spatialSEIRModel.nBeta, spatialSEIRModel.nBetaRS, spatialSEIRModel.nRho,
      nTransOf, spatialSEIRModel.hasReinfection, spatialSEIRModel.hasSpatial,
      c5Orch, List.range_succ]
    decide
  · norm_num [spatialSEIRModel.evalPrior, spatialSEIRModel.evalPrior_transFactor,
      spatialSEIRModel.evalBase, spatialSEIRModel.nBeta, spatialSEIRModel.nBetaRS,
      spatialSEIRModel.nRho, spatialSEIRModel.hasReinfection,
      spatialSEIRModel.hasSpatial, c5Orch, prodR, sumR, List.range_succ]

/-- C7: when the rho block is present, `evalPrior` multiplies the Beta
densities by the hard indicator on the block sum, so any parameter vector
whose rho entries sum to more than 1 gets prior value 0. -/
theorem claim_evalPrior_rho_indicator (o : spatialSEIRModel)
    (dn db dg : ℚ → ℚ → ℚ → ℚ) (wE : List ℚ → ℚ → ℚ → ℚ) (v : ℕ → ℚ)
    (h : 1 < sumR o.nRho (fun i => v (o.nBeta + o.nBetaRS + i))) :
    o.evalPrior dn db dg wE v = 0 := by
  have hn : 0 < o.nRho := by
    by_contra hc
    have h0 : o.nRho = 0 := by omega
    rw [h0] at h
    norm_num [sumR] at h
  unfold spatialSEIRModel.evalPrior
  rw [if_pos hn, if_neg (not_le.mpr h)]
  ring

/-- Witness for C7 at the end-to-end fixture (nRho = 2): the all-ones
vector has rho-block sum 2 > 1 and prior value 0. -/
theorem claim_evalPrior_rho_indicator_witness :
    1 < sumR egOrch.nRho (fun _ => (1 : ℚ)) ∧
    egOrch.evalPrior (fun _ _ _ => 1) (fun _ _ _ => 1) (fun _ _ _ => 1)
      (fun _ _ _ => 1) (fun _ => 1) = 0 := by
  have h2 : egOrch.nRho = 2 := by decide
  have h : 1 < sumR egOrch.nRho (fun _ => (1 : ℚ)) := by
    rw [h2]
    norm_num [sumR, List.range_succ]
  exact ⟨h, claim_evalPrior_rho_indicator egOrch _ _ _ _ _ h⟩

/-- C8: the transition hyperparameter block is branch-specific.  Sampling:
exponential mode draws 2 gamma variates from the first column pair
(shape row 0, scale 1/(row 1)) of the two hyperparameter matrices, weibull
mode draws 4 from the (0,1) and (2,3) column pairs — directly from the
marginal hyperpriors, and the output is invariant under replacing the
TransitionDistribution objects stored in the orchestrator, which the
sampler never consults.  Evaluation: exponential mode multiplies two
inline gamma densities with exactly those parameters, weibull mode
delegates each 2-entry segment to the stored E-to-I and I-to-R
distribution objects' own hyperprior evaluators. -/
theorem claim_transition_branches (o : spatialSEIRModel) (g : ℕ → DrawDist → ℚ)
    (nParticles i : ℕ) (dg : ℚ → ℚ → ℚ → ℚ) (wE : List ℚ → ℚ → ℚ → ℚ)
    (v : ℕ → ℚ) (EIa IRa : weibullTransitionDistribution) :
    (o.genPrior_transRow g nParticles i =
      if o.transitionPriorsInstance.mode = "exponential" then
        [g (o.genPrior_K1 nParticles + 2 * i)
            (DrawDist.gammaD (o.transitionPriorsInstance.E_to_I_params.entry 0 0)
              (1 / o.transitionPriorsInstance.E_to_I_params.entry 1 0)),
         g (o.genPrior_K1 nParticles + 2 * i + 1)
            (DrawDist.gammaD (o.transitionPriorsInstance.I_to_R_params.entry 0 0)
              (1 / o.transitionPriorsInstance.I_to_R_params.entry 1 0))]
      else if o.transitionPriorsInstance.mode = "weibull" then
        [g (o.genPrior_K1 nParticles + 4 * i)
            (DrawDist.gammaD (o.transitionPriorsInstance.E_to_I_params.entry 0 0)
              (1 / o.transitionPriorsInstance.E_to_I_params.entry 1 0)),
         g (o.genPrior_K1 nParticles + 4 * i + 1)
            (DrawDist.gammaD (o.transitionPriorsInstance.E_to_I_params.entry 2 0)
              (1 / o.transitionPriorsInstance.E_to_I_params.entry 3 0)),
         g (o.genPrior_K1 nParticles + 4 * i + 2)
            (DrawDist.gammaD (o.transitionPriorsInstance.I_to_R_params.entry 0 0)
              (1 / o.transitionPriorsInstance.I_to_R_params.entry 1 0)),
         g (o.genPrior_K1 nParticles + 4 * i + 3)
            (DrawDist.gammaD (o.transitionPriorsInstance.I_to_R_params.entry 2 0)
              (1 / o.transitionPriorsInstance.I_to_R_params.entry 3 0))]
      else []) ∧
    (spatialSEIRModel.generateParamsPrior
        { o with EI_transition_dist := EIa, IR_transition_dist := IRa } g nParticles =
      o.generateParamsPrior g nParticles) ∧
    (o.evalPrior_transFactor dg wE v =
      if o.transitionPriorsInstance.mode = "exponential" then
        dg (v o.evalBase) (o.transitionPriorsInstance.E_to_I_params.entry 0 0)
            (1 / o.transitionPriorsInstance.E_to_I_params.entry 1 0) *
          dg (v (o.evalBase + 1)) (o.transitionPriorsInstance.I_to_R_params.entry 0 0)
            (1 / o.transitionPriorsInstance.I_to_R_params.entry 1 0)
      else if o.transitionPriorsInstance.mode = "weibull" then
        wE o.EI_transition_dist.priorParams (v o.evalBase) (v (o.evalBase + 1)) *
          wE o.IR_transition_dist.priorParams (v (o.evalBase + 2)) (v (o.evalBase + 3))
      else 1) :=
  ⟨rfl, rfl, rfl⟩

/-- C9: samplingControl construction succeeds exactly when the fixed block
has 9 integers and 3 numerics, the algorithm code is one of the three
valid codes, and max_batches is positive; destruction succeeds exactly
when the reference count is zero (destroying a still-referenced object is
an error); and the exposed binding surface registers no mutating
operation, so the object is immutable after construction. -/
theorem claim_samplingControl_validation (ints : List ℤ) (nums : List ℚ)
    (sc : samplingControl) :
    ((∃ s, samplingControl.construct ints nums = Except.ok s) ↔
      ints.length = 9 ∧ nums.length = 3 ∧
        (ints.getD 3 0 = ALG_BasicABC ∨ ints.getD 3 0 = ALG_ModifiedBeaumont2009 ∨
          ints.getD 3 0 = ALG_DelMoral2012) ∧ 0 < ints.getD 6 0) ∧
    ((samplingControl.destruct sc = Except.ok ()) ↔ sc.prot = 0) ∧
    samplingControl.exposedMutators = [] := by
  refine ⟨?_, ?_, rfl⟩
  · unfold samplingControl.construct
    by_cases h1 : ints.length ≠ 9 ∨ nums.length ≠ 3
    · rw [if_pos h1]
      refine iff_of_false (by rintro ⟨s, hs⟩; exact Except.noConfusion hs) ?_
      rintro ⟨l9, l3, _, _⟩
      rcases h1 with h | h
      exacts [h l9, h l3]
    · rw [if_neg h1]
      push_neg at h1
      by_cases h2 : ints.getD 3 0 ≠ ALG_BasicABC ∧
          ints.getD 3 0 ≠ ALG_ModifiedBeaumont2009 ∧ ints.getD 3 0 ≠ ALG_DelMoral2012
      · rw [if_pos h2]
        refine iff_of_false (by rintro ⟨s, hs⟩; exact Except.noConfusion hs) ?_
        rintro ⟨_, _, halg, _⟩
        rcases halg with h | h | h
        exacts [h2.1 h, h2.2.1 h, h2.2.2 h]
      · rw [if_neg h2]
        by_cases h3 : ints.getD 6 0 ≤ 0
        · rw [if_pos h3]
          refine iff_of_false (by rintro ⟨s, hs⟩; exact Except.noConfusion hs) ?_
          rintro ⟨_, _, _, hmb⟩
          omega
        · rw [if_neg h3]
          push_neg at h3
          refine iff_of_true ⟨_, rfl⟩ ⟨h1.1, h1.2, ?_, h3⟩
          by_contra hc
          push_neg at hc
          exact h2 ⟨hc.1, hc.2.1, hc.2.2⟩
  · unfold samplingControl.destruct
    by_cases hp : sc.prot ≠ 0
    · rw [if_pos hp]
      exact iff_of_false (fun hs => Except.noConfusion hs) hp
    · rw [if_neg hp]
      push_neg at hp
      exact iff_of_true rfl hp

/-- C10 (evidence for the code_bug record): the body of `run_simulation`
is only the comment `To-do: run simulation logic here`, so the call is a
no-op on the orchestrator — in particular the result stores
(`results_double`, `results_complete`, `result_idx`) are untouched,
contradicting the specified dispatch-and-collect behavior. -/
theorem claim_run_simulation_noop (o : spatialSEIRModel) (params : MatrixQ) :
    o.run_simulation params = o ∧
    (o.run_simulation params).results_double = o.results_double ∧
    (o.run_simulation params).results_complete = o.results_complete ∧
    (o.run_simulation params).result_idx = o.result_idx :=
  ⟨rfl, rfl, rfl, rfl⟩
